import Mathlib

/-!
Verification of the orchestration notebook
`src/genie-space/orchestration/query_optimization_orchestration.py`.

The notebook's external effects are modelled explicitly:

* the warehouse engine's response to one execution attempt of a unit of work is
  a function `Nat → Except String Nat` mapping the 0-based attempt index to
  either an error message (a raised exception, caught by the retry loop) or a
  row count (`len(sql_result.collect())`);
* for inline commands the engine is `String → Nat → Except String Nat`, also
  taking the SQL text actually submitted (`spark.sql(sql_command)`);
* wall-clock timestamps are abstracted: `start_time = 0` always, `end_time`
  becomes `some 1` at the moment the source assigns `datetime.now()`, and
  elapsed seconds stay `0`;
* `time.sleep(wait_time)` calls are not performed but recorded: the executor
  returns the list of waited durations next to the result record.
-/

namespace QOpt

/-- The `result` dict built by `execute_sql_script` / `execute_sql_command`.
`subject` holds the `"script"` key for scripts and the (possibly truncated)
`"command"` key for inline commands; the remaining keys match the source. -/
structure ExecResult where
  subject : String
  description : String
  status : String
  start_time : Nat := 0
  end_time : Option Nat := none
  execution_time_seconds : Nat := 0
  attempt_count : Nat := 0
  error_message : Option String := none
  row_count : Nat := 0
  deriving DecidableEq

/-- The retry loop `for attempt in range(max_retries): ...` shared verbatim by
`execute_sql_script` and `execute_sql_command`.  `fuel` counts the remaining
loop iterations (`maxRetries - attempt`); the returned list is the trace of
back-off sleeps (`wait_time = RETRY_DELAY_SECONDS * (2 ** attempt)`). -/
def execLoop (work : Nat → Except String Nat) (maxRetries delay : Nat) :
    Nat → Nat → ExecResult → ExecResult × List Nat
  | 0, _, result => (result, [])
  | fuel + 1, attempt, result =>
    match work attempt with
    | Except.ok rows =>
        ({ result with
            attempt_count := attempt + 1, row_count := rows,
            status := "SUCCESS", end_time := some 1 }, [])
    | Except.error msg =>
        if attempt = maxRetries - 1 then
          ({ result with
              attempt_count := attempt + 1, error_message := some msg,
              status := "FAILED", end_time := some 1 }, [])
        else
          let rest := execLoop work maxRetries delay fuel (attempt + 1)
            { result with attempt_count := attempt + 1, error_message := some msg }
          (rest.1, delay * 2 ^ attempt :: rest.2)

/-- The `result` dict as initialised before the retry loop starts. -/
def initResult (subject description : String) : ExecResult :=
  { subject := subject, description := description, status := "PENDING" }

/-- `execute_sql_script(script_path, description, max_retries)`.
`max_retries` is an integer; `range(max_retries)` is empty when it is ≤ 0,
which `Int.toNat` reproduces.  `retry_delay_seconds` is the configuration
global `RETRY_DELAY_SECONDS`. -/
def execute_sql_script (work : Nat → Except String Nat)
    (script_path description : String) (max_retries : Int) (retry_delay_seconds : Nat) :
    ExecResult × List Nat :=
  execLoop work max_retries.toNat retry_delay_seconds max_retries.toNat 0
    (initResult script_path description)

/-- The display form of an inline command stored in the result dict:
`sql_command[:100] + "..." if len(sql_command) > 100 else sql_command`. -/
def truncateCommand (sql_command : String) : String :=
  if sql_command.length > 100 then sql_command.take 100 ++ "..." else sql_command

/-- `execute_sql_command(sql_command, description, max_retries)`.  The engine
receives the full `sql_command` (the truncation feeds only the stored
`"command"` key). -/
def execute_sql_command (engine : String → Nat → Except String Nat)
    (sql_command description : String) (max_retries : Int) (retry_delay_seconds : Nat) :
    ExecResult × List Nat :=
  execLoop (engine sql_command) max_retries.toNat retry_delay_seconds max_retries.toNat 0
    (initResult (truncateCommand sql_command) description)

lemma execLoop_subject_desc (work : Nat → Except String Nat) (n d : Nat) :
    ∀ fuel a r, (execLoop work n d fuel a r).1.subject = r.subject ∧
      (execLoop work n d fuel a r).1.description = r.description := by
  intro fuel
  induction fuel with
  | zero => intro a r; exact ⟨rfl, rfl⟩
  | succ fuel ih =>
    intro a r
    simp only [execLoop]
    cases work a with
    | ok rows => exact ⟨by trivial, by trivial⟩
    | error msg =>
      by_cases hlast : a = n - 1
      · simp only [if_pos hlast]; exact ⟨by trivial, by trivial⟩
      · simp only [if_neg hlast]; exact ih (a + 1) _

lemma execLoop_all_error (work : Nat → Except String Nat) (n d : Nat) :
    ∀ fuel a r, fuel = n - a → a < n →
      (∀ k, a ≤ k → k < n → ∃ m, work k = Except.error m) →
      (execLoop work n d fuel a r).1.status = "FAILED" ∧
      (execLoop work n d fuel a r).1.attempt_count = n ∧
      ∀ m, work (n - 1) = Except.error m →
        (execLoop work n d fuel a r).1.error_message = some m := by
  intro fuel
  induction fuel with
  | zero => intro a r hfuel ha _; omega
  | succ fuel ih =>
    intro a r hfuel ha hfail
    obtain ⟨m, hm⟩ := hfail a le_rfl ha
    by_cases hlast : a = n - 1
    · simp only [execLoop, hm, if_pos hlast]
      refine ⟨by trivial, by omega, ?_⟩
      intro m2 hm2
      rw [← hlast, hm] at hm2
      simp only [Except.error.injEq] at hm2
      simp [hm2]
    · have ha2 : a + 1 < n := by omega
      simp only [execLoop, hm, if_neg hlast]
      exact ih (a + 1) { r with attempt_count := a + 1, error_message := some m }
        (by omega) ha2 (fun k hk1 hk2 => hfail k (by omega) hk2)

lemma execLoop_first_ok (work work2 : Nat → Except String Nat) (n d k c : Nat)
    (hk : k < n) (hok : work k = Except.ok c) :
    ∀ fuel a r, fuel = n - a → a ≤ k →
      (∀ j, a ≤ j → j < k → ∃ m, work j = Except.error m) →
      (∀ j, a ≤ j → j ≤ k → work2 j = work j) →
      execLoop work2 n d fuel a r = execLoop work n d fuel a r ∧
      (execLoop work n d fuel a r).1.status = "SUCCESS" ∧
      (execLoop work n d fuel a r).1.attempt_count = k + 1 ∧
      (execLoop work n d fuel a r).1.row_count = c := by
  intro fuel
  induction fuel with
  | zero => intro a r hfuel ha _ _; omega
  | succ fuel ih =>
    intro a r hfuel ha hfail hagree
    by_cases hak : a = k
    · subst hak
      have h2 : work2 a = work a := hagree a le_rfl le_rfl
      simp only [execLoop, h2, hok]
      exact ⟨by trivial, by trivial, by trivial, by trivial⟩
    · have hak2 : a < k := lt_of_le_of_ne ha hak
      obtain ⟨m, hm⟩ := hfail a le_rfl hak2
      have h2 : work2 a = work a := hagree a le_rfl (le_of_lt hak2)
      have hlast : ¬(a = n - 1) := by omega
      simp only [execLoop, h2, hm, if_neg hlast]
      have := ih (a + 1) { r with attempt_count := a + 1, error_message := some m }
        (by omega) (by omega)
        (fun j hj1 hj2 => hfail j (by omega) hj2)
        (fun j hj1 hj2 => hagree j (by omega) hj2)
      exact ⟨by rw [this.1], this.2.1, this.2.2.1, this.2.2.2⟩

lemma execLoop_attempt_ge (work : Nat → Except String Nat) (n d : Nat) :
    ∀ fuel a r, fuel = n - a → a < n →
      a + 1 ≤ (execLoop work n d fuel a r).1.attempt_count := by
  intro fuel
  induction fuel with
  | zero => intro a r hfuel ha; omega
  | succ fuel ih =>
    intro a r hfuel ha
    simp only [execLoop]
    cases work a with
    | ok rows => simp
    | error msg =>
      by_cases hlast : a = n - 1
      · simp [if_pos hlast]
      · simp only [if_neg hlast]
        have := ih (a + 1) { r with attempt_count := a + 1, error_message := some msg }
          (by omega) (by omega)
        omega

lemma execLoop_sleeps (work : Nat → Except String Nat) (n d : Nat) :
    ∀ fuel a r, fuel = n - a → a < n →
      (execLoop work n d fuel a r).2 =
        (List.range' a ((execLoop work n d fuel a r).1.attempt_count - 1 - a)).map
          (fun j => d * 2 ^ j) := by
  intro fuel
  induction fuel with
  | zero => intro a r hfuel ha; omega
  | succ fuel ih =>
    intro a r hfuel ha
    simp only [execLoop]
    cases work a with
    | ok rows => simp
    | error msg =>
      by_cases hlast : a = n - 1
      · simp [if_pos hlast]
      · simp only [if_neg hlast]
        have hge := execLoop_attempt_ge work n d fuel (a + 1)
          { r with attempt_count := a + 1, error_message := some msg }
          (by omega) (by omega)
        have hrec := ih (a + 1) { r with attempt_count := a + 1, error_message := some msg }
          (by omega) (by omega)
        set out := execLoop work n d fuel (a + 1)
          { r with attempt_count := a + 1, error_message := some msg } with hout
        have hlen : out.1.attempt_count - 1 - a = (out.1.attempt_count - 1 - (a + 1)) + 1 := by
          omega
        rw [hlen, List.range'_succ, List.map_cons, hrec]

/-- One entry of the list built by `check_system_table_access`. -/
structure ValidationOutcome where
  table : String
  status : String
  accessible : Bool
  error : Option String
  deriving DecidableEq

/-- The dict appended for one table inside `check_system_table_access`:
`access table = none` models the probe query succeeding, `some e` models the
raised exception with message `e` (caught by the per-table `except`). -/
def tableOutcome (access : String → Option String) (table : String) : ValidationOutcome :=
  match access table with
  | none => { table := table, status := "SUCCESS", accessible := true, error := none }
  | some e => { table := table, status := "FAILED", accessible := false, error := some e }

/-- The fallback `required_tables` list hard-coded in the source. -/
def default_required_tables : List String :=
  ["system.query.history", "system.billing.usage", "system.billing.list_prices",
   "system.compute.clusters", "system.compute.warehouses"]

/-- `check_system_table_access()`: one outcome per required table, appended in
input order by the `for table in required_tables` loop. -/
def check_system_table_access (required_tables : List String)
    (access : String → Option String) : List ValidationOutcome :=
  required_tables.map (tableOutcome access)

/-- The environment visible to `validate_prerequisites`: the engine's response
to each probe, the configured table list, and the outcome of the schema, the
config-key and the connectivity check. -/
structure Env where
  required_tables : List String
  access : String → Option String
  schema_check : Option String
  config_keys : List String
  connectivity : Option String

/-- `required_config_keys = ["schemas", "etl", "performance_thresholds"]`. -/
def required_config_keys : List String := ["schemas", "etl", "performance_thresholds"]

/-- `validate_prerequisites()`: accumulates `validation_errors` across the four
checks, returns `(success, validation_errors)` with
`success = len(validation_errors) == 0`. -/
def validate_prerequisites (env : Env) : Bool × List String :=
  let access_results := check_system_table_access env.required_tables env.access
  let failed_access := access_results.filter (fun r => !r.accessible)
  let errors1 := failed_access.map
    (fun r => "Cannot access " ++ r.table ++ ": " ++ r.error.getD "None")
  let errors2 := match env.schema_check with
    | some e => ["Schema mcp.query_optimization not accessible: " ++ e]
    | none => []
  let errors3 := (required_config_keys.filter (fun k => !env.config_keys.contains k)).map
    (fun k => "Missing required configuration section: " ++ k)
  let errors4 := match env.connectivity with
    | some e => ["Cluster resource issue: " ++ e]
    | none => []
  let validation_errors := errors1 ++ errors2 ++ errors3 ++ errors4
  (validation_errors.isEmpty, validation_errors)

/-- One element of the hard-coded `pipeline_steps` list. -/
structure StepSpec where
  script : String
  description : String
  required : Bool
  deriving DecidableEq

/-- The fixed `pipeline_steps` list of `execute_pipeline`. -/
def pipeline_steps : List StepSpec :=
  [⟨"../sql/01_schema_setup.sql", "Setup schema and permissions", true⟩,
   ⟨"../sql/02_core_tables.sql", "Create core Delta tables", true⟩,
   ⟨"../sql/03_materialized_views.sql", "Create materialized views for dashboards", true⟩,
   ⟨"../sql/04_regular_views.sql", "Create real-time analysis views", true⟩]

/-- The pipeline summary dict.  The early-return branch leaves out the
`steps_failed` key, hence the `Option`. -/
structure PipelineSummary where
  status : String
  steps_completed : Nat
  steps_failed : Option Nat := none
  steps_total : Nat
  results : List ExecResult
  error : Option String := none
  deriving DecidableEq

/-- The `for step in pipeline_steps` loop of `execute_pipeline`: runs each step
through `execute_sql_script`, appends its result, and stops at the first
required step whose result status is FAILED (returning that step as well). -/
def runSteps (scripts : String → Nat → Except String Nat) (mr : Int) (d : Nat) :
    List StepSpec → List ExecResult → List ExecResult × Option StepSpec
  | [], acc => (acc, none)
  | step :: rest, acc =>
    let result := (execute_sql_script (scripts step.script) step.script step.description mr d).1
    if step.required && (result.status == "FAILED") then
      (acc ++ [result], some step)
    else
      runSteps scripts mr d rest (acc ++ [result])

/-- The incremental ETL command text (its embedded timestamps are abstracted;
no claim depends on them). -/
def etl_command : String :=
  "CALL mcp.query_optimization.process_query_performance_incremental(TIMESTAMP(start_time), TIMESTAMP(end_time))"

/-- `"SUCCESS" if failed_steps == 0 else "PARTIAL_SUCCESS" if successful_steps > 0 else "FAILED"`. -/
def aggregate_status (failed_steps successful_steps : Nat) : String :=
  if failed_steps = 0 then "SUCCESS"
  else if successful_steps > 0 then "PARTIAL_SUCCESS"
  else "FAILED"

/-- `execute_pipeline()`.  `scripts` is the engine's behaviour per script path
and attempt, `etlEngine` its behaviour for the inline ETL command; `mr`/`d`
are the configuration globals `MAX_RETRY_ATTEMPTS` / `RETRY_DELAY_SECONDS`. -/
def execute_pipeline (scripts etlEngine : String → Nat → Except String Nat)
    (mr : Int) (d : Nat) : PipelineSummary :=
  let run := runSteps scripts mr d pipeline_steps []
  match run.2 with
  | some step =>
    { status := "FAILED", steps_completed := run.1.length, steps_failed := none,
      steps_total := pipeline_steps.length, results := run.1,
      error := some ("Required pipeline step failed: " ++ step.description) }
  | none =>
    let etl_result := (execute_sql_command etlEngine etl_command
        "Process incremental query performance data" mr d).1
    let all := run.1 ++ [etl_result]
    let successful_steps := (all.filter (fun r => r.status == "SUCCESS")).length
    let failed_steps := (all.filter (fun r => r.status == "FAILED")).length
    { status := aggregate_status failed_steps successful_steps,
      steps_completed := successful_steps, steps_failed := some failed_steps,
      steps_total := all.length, results := all, error := none }

/-- The fields of `validation_results` read by `generate_summary_report`
(the health/quality check lists are not consulted there). -/
structure ValidationResults where
  overall_status : String
  deriving DecidableEq

/-- The report fields determined by the status classification of
`generate_summary_report` (derived float metrics are not modelled; no claim
concerns them). -/
structure Report where
  overall_status : String
  severity : String
  deriving DecidableEq

/-- `generate_summary_report(pipeline_summary, validation_results)`: the
`if pipeline_status == "SUCCESS" and validation_status == "SUCCESS" ... elif
pipeline_status == "PARTIAL_SUCCESS" or validation_status == "FAILED" ... else`
classification. -/
def generate_summary_report (pipeline_summary : PipelineSummary)
    (validation_results : ValidationResults) : Report :=
  let pipeline_status := pipeline_summary.status
  let validation_status := validation_results.overall_status
  if pipeline_status == "SUCCESS" && validation_status == "SUCCESS" then
    { overall_status := "SUCCESS", severity := "INFO" }
  else if pipeline_status == "PARTIAL_SUCCESS" || validation_status == "FAILED" then
    { overall_status := "WARNING", severity := "WARNING" }
  else
    { overall_status := "FAILED", severity := "ERROR" }

/-- The notebook's top level around the pipeline: run
`validate_prerequisites`, `raise Exception(...)` (modelled as `Except.error`)
when it fails, otherwise run `execute_pipeline` and return its summary as
data.  This `raise` is the only exception that escapes any function in the
notebook's driver path. -/
def run_notebook (env : Env) (scripts etlEngine : String → Nat → Except String Nat)
    (mr : Int) (d : Nat) : Except String PipelineSummary :=
  let v := validate_prerequisites env
  if v.1 then Except.ok (execute_pipeline scripts etlEngine mr d)
  else Except.error ("Prerequisites validation failed: " ++ String.intercalate "; " v.2)

lemma exec_sleeps_spec (work : Nat → Except String Nat) (n d : Nat) (subj desc : String) :
    (execLoop work n d n 0 (initResult subj desc)).2 =
      (List.range ((execLoop work n d n 0 (initResult subj desc)).1.attempt_count - 1)).map
        (fun j => d * 2 ^ j) := by
  rcases Nat.eq_zero_or_pos n with hn | hn
  · subst hn; rfl
  · have h := execLoop_sleeps work n d n 0 (initResult subj desc) (by omega) hn
    rw [h, List.range_eq_range']
    simp

lemma backoff_pairwise (d len : Nat) (hd : 0 < d) :
    ((List.range len).map (fun j => d * 2 ^ j)).Pairwise (· < ·) := by
  refine List.Pairwise.map _ (fun a b hab => ?_) (List.pairwise_lt_range len)
  exact mul_lt_mul_of_pos_left (Nat.pow_lt_pow_right (by omega) hab) hd

/-- A unit of work whose every attempt raises, used as concrete input. -/
def wAllFail : Nat → Except String Nat := fun _ => Except.error "boom"

/-- An engine whose every attempt on every command raises. -/
def engAllFail : String → Nat → Except String Nat := fun _ _ => Except.error "boom"

/-- A unit of work failing on attempt 0 and succeeding from attempt 1 on. -/
def wSecondTry : Nat → Except String Nat :=
  fun k => if k = 0 then Except.error "boom" else Except.ok 7

/-- An engine that always succeeds with zero rows. -/
def engAllOk : String → Nat → Except String Nat := fun _ _ => Except.ok 0

/-- C3: with `max_retries = n ≥ 1` and a permanently failing unit of work,
both executors perform exactly `n` attempts and return (never raise) a
result with status FAILED, `attempt_count = n` and `error_message` equal to
the last attempt's failure message.  Both functions are total Lean
functions, so failure is returned as data, never thrown. -/
theorem c3_exhausted_retries_failed (work : Nat → Except String Nat)
    (engine : String → Nat → Except String Nat) (script cmd desc : String)
    (n d : Nat) (hn : 1 ≤ n)
    (hw : ∀ k, k < n → ∃ m, work k = Except.error m)
    (he : ∀ k, k < n → ∃ m, engine cmd k = Except.error m) :
    ((execute_sql_script work script desc (n : Int) d).1.status = "FAILED" ∧
     (execute_sql_script work script desc (n : Int) d).1.attempt_count = n ∧
     ∀ m, work (n - 1) = Except.error m →
       (execute_sql_script work script desc (n : Int) d).1.error_message = some m) ∧
    ((execute_sql_command engine cmd desc (n : Int) d).1.status = "FAILED" ∧
     (execute_sql_command engine cmd desc (n : Int) d).1.attempt_count = n ∧
     ∀ m, engine cmd (n - 1) = Except.error m →
       (execute_sql_command engine cmd desc (n : Int) d).1.error_message = some m) := by
  have hc := execLoop_all_error work n d n 0 (initResult script desc)
    (by omega) (by omega) (fun k _ hk => hw k hk)
  have hc2 := execLoop_all_error (engine cmd) n d n 0 (initResult (truncateCommand cmd) desc)
    (by omega) (by omega) (fun k _ hk => he k hk)
  simp only [execute_sql_script, execute_sql_command, Int.toNat_ofNat]
  exact ⟨hc, hc2⟩

/-- C3 witness at `n = 2`. -/
theorem c3_exhausted_retries_failed_witness :
    ((execute_sql_script wAllFail "s" "d" ((2 : Nat) : Int) 1).1.status = "FAILED" ∧
     (execute_sql_script wAllFail "s" "d" ((2 : Nat) : Int) 1).1.attempt_count = 2 ∧
     ∀ m, wAllFail (2 - 1) = Except.error m →
       (execute_sql_script wAllFail "s" "d" ((2 : Nat) : Int) 1).1.error_message = some m) ∧
    ((execute_sql_command engAllFail "c" "d" ((2 : Nat) : Int) 1).1.status = "FAILED" ∧
     (execute_sql_command engAllFail "c" "d" ((2 : Nat) : Int) 1).1.attempt_count = 2 ∧
     ∀ m, engAllFail "c" (2 - 1) = Except.error m →
       (execute_sql_command engAllFail "c" "d" ((2 : Nat) : Int) 1).1.error_message = some m) :=
  c3_exhausted_retries_failed wAllFail engAllFail "s" "c" "d" 2 1 (by decide)
    (fun _ _ => ⟨"boom", rfl⟩) (fun _ _ => ⟨"boom", rfl⟩)

/-- C4: the trace of sleeps of a run is exactly
`retry_delay_seconds * 2^k` for the failed, non-final attempts
`k = 0, 1, …` in order (no jitter); for a positive base delay the trace is
strictly increasing; its length is `attempt_count - 1`, so no sleep follows
the final attempt.  Stated for both executors. -/
theorem c4_backoff_schedule (work : Nat → Except String Nat)
    (engine : String → Nat → Except String Nat) (script cmd desc : String) (n d : Nat) :
    ((execute_sql_script work script desc (n : Int) d).2 =
      (List.range ((execute_sql_script work script desc (n : Int) d).1.attempt_count - 1)).map
        (fun k => d * 2 ^ k)) ∧
    ((execute_sql_script work script desc (n : Int) d).2.length =
      (execute_sql_script work script desc (n : Int) d).1.attempt_count - 1) ∧
    (0 < d → ((execute_sql_script work script desc (n : Int) d).2).Pairwise (· < ·)) ∧
    ((execute_sql_command engine cmd desc (n : Int) d).2 =
      (List.range ((execute_sql_command engine cmd desc (n : Int) d).1.attempt_count - 1)).map
        (fun k => d * 2 ^ k)) ∧
    ((execute_sql_command engine cmd desc (n : Int) d).2.length =
      (execute_sql_command engine cmd desc (n : Int) d).1.attempt_count - 1) ∧
    (0 < d → ((execute_sql_command engine cmd desc (n : Int) d).2).Pairwise (· < ·)) := by
  simp only [execute_sql_script, execute_sql_command, Int.toNat_ofNat]
  have h1 := exec_sleeps_spec work n d script desc
  have h2 := exec_sleeps_spec (engine cmd) n d (truncateCommand cmd) desc
  refine ⟨h1, ?_, ?_, h2, ?_, ?_⟩
  · rw [h1]; simp
  · intro hd; rw [h1]; exact backoff_pairwise d _ hd
  · rw [h2]; simp
  · intro hd; rw [h2]; exact backoff_pairwise d _ hd

/-- C4 witness: three permanently failing attempts with base delay 30. -/
theorem c4_backoff_schedule_witness :
    ((execute_sql_script wAllFail "s" "d" ((3 : Nat) : Int) 30).2 =
      (List.range ((execute_sql_script wAllFail "s" "d" ((3 : Nat) : Int) 30).1.attempt_count - 1)).map
        (fun k => 30 * 2 ^ k)) ∧
    ((execute_sql_script wAllFail "s" "d" ((3 : Nat) : Int) 30).2.length =
      (execute_sql_script wAllFail "s" "d" ((3 : Nat) : Int) 30).1.attempt_count - 1) ∧
    (0 < 30 → ((execute_sql_script wAllFail "s" "d" ((3 : Nat) : Int) 30).2).Pairwise (· < ·)) ∧
    ((execute_sql_command engAllFail "c" "d" ((3 : Nat) : Int) 30).2 =
      (List.range ((execute_sql_command engAllFail "c" "d" ((3 : Nat) : Int) 30).1.attempt_count - 1)).map
        (fun k => 30 * 2 ^ k)) ∧
    ((execute_sql_command engAllFail "c" "d" ((3 : Nat) : Int) 30).2.length =
      (execute_sql_command engAllFail "c" "d" ((3 : Nat) : Int) 30).1.attempt_count - 1) ∧
    (0 < 30 → ((execute_sql_command engAllFail "c" "d" ((3 : Nat) : Int) 30).2).Pairwise (· < ·)) :=
  c4_backoff_schedule wAllFail engAllFail "s" "c" "d" 3 30

/-- C5: if the unit of work first succeeds on 0-based attempt `k < n`, the
executor returns SUCCESS with `attempt_count = k + 1` and the run is
insensitive to the behaviour of attempts after `k` (no later attempt is
performed). -/
theorem c5_success_stops_retrying (work : Nat → Except String Nat)
    (script desc : String) (n k c d : Nat) (hk : k < n)
    (hok : work k = Except.ok c)
    (hfail : ∀ j, j < k → ∃ m, work j = Except.error m) :
    (execute_sql_script work script desc (n : Int) d).1.status = "SUCCESS" ∧
    (execute_sql_script work script desc (n : Int) d).1.attempt_count = k + 1 ∧
    (execute_sql_script work script desc (n : Int) d).1.row_count = c ∧
    ∀ work2 : Nat → Except String Nat, (∀ j, j ≤ k → work2 j = work j) →
      execute_sql_script work2 script desc (n : Int) d =
        execute_sql_script work script desc (n : Int) d := by
  simp only [execute_sql_script, Int.toNat_ofNat]
  have h := execLoop_first_ok work work n d k c hk hok n 0 (initResult script desc)
    (by omega) (Nat.zero_le k) (fun j _ hj => hfail j hj) (fun _ _ _ => rfl)
  refine ⟨h.2.1, h.2.2.1, h.2.2.2, ?_⟩
  intro work2 hagree
  exact (execLoop_first_ok work work2 n d k c hk hok n 0 (initResult script desc)
    (by omega) (Nat.zero_le k) (fun j _ hj => hfail j hj) (fun j _ hj => hagree j hj)).1

/-- C5 witness: success on the second attempt (`k = 1`) of three. -/
theorem c5_success_stops_retrying_witness :
    (execute_sql_script wSecondTry "s" "d" ((3 : Nat) : Int) 1).1.status = "SUCCESS" ∧
    (execute_sql_script wSecondTry "s" "d" ((3 : Nat) : Int) 1).1.attempt_count = 1 + 1 ∧
    (execute_sql_script wSecondTry "s" "d" ((3 : Nat) : Int) 1).1.row_count = 7 ∧
    ∀ work2 : Nat → Except String Nat, (∀ j, j ≤ 1 → work2 j = wSecondTry j) →
      execute_sql_script work2 "s" "d" ((3 : Nat) : Int) 1 =
        execute_sql_script wSecondTry "s" "d" ((3 : Nat) : Int) 1 :=
  c5_success_stops_retrying wSecondTry "s" "d" 3 1 7 1 (by decide) rfl
    (fun j hj => ⟨"boom", by have hj0 : j = 0 := by omega
                             subst hj0; rfl⟩)

/-- C9 (counterexample): a 101-character command is stored as its first 100
characters with `"..."` appended, which differs from the plain 100-character
truncation the claim describes. -/
def c9_long_command : String := String.mk (List.replicate 101 'a')

set_option maxRecDepth 8000 in
/-- C9 (counterexample): the stored command field is not the bare
100-character truncation; it carries a trailing `"..."`. -/
theorem c9_truncation_appends_dots :
    c9_long_command.length = 101 ∧
    (execute_sql_command engAllOk c9_long_command "d" 1 0).1.subject ≠
      c9_long_command.take 100 ∧
    (execute_sql_command engAllOk c9_long_command "d" 1 0).1.subject =
      c9_long_command.take 100 ++ "..." := by
  refine ⟨by decide, ?_, ?_⟩ <;> decide

/-- C9 (amended): the stored command field is the first 100 characters
followed by `"..."` when the command exceeds 100 characters (unchanged
otherwise), while execution always submits the full untruncated command: the
outcome depends on the engine only through its behaviour on the full
command string. -/
theorem c9_display_truncated_execution_full (engine : String → Nat → Except String Nat)
    (cmd desc : String) (mr : Int) (d : Nat) :
    ((execute_sql_command engine cmd desc mr d).1.subject =
      if cmd.length > 100 then cmd.take 100 ++ "..." else cmd) ∧
    ∀ engine2 : String → Nat → Except String Nat, engine2 cmd = engine cmd →
      execute_sql_command engine2 cmd desc mr d =
        execute_sql_command engine cmd desc mr d := by
  constructor
  · have h := (execLoop_subject_desc (engine cmd) mr.toNat d mr.toNat 0
      (initResult (truncateCommand cmd) desc)).1
    simpa [execute_sql_command, initResult, truncateCommand] using h
  · intro engine2 hagree
    simp [execute_sql_command, hagree]

/-- C9 witness at the 101-character command. -/
theorem c9_display_truncated_execution_full_witness :
    ((execute_sql_command engAllOk c9_long_command "d" 1 0).1.subject =
      if c9_long_command.length > 100 then c9_long_command.take 100 ++ "..." else c9_long_command) ∧
    ∀ engine2 : String → Nat → Except String Nat,
      engine2 c9_long_command = engAllOk c9_long_command →
      execute_sql_command engine2 c9_long_command "d" 1 0 =
        execute_sql_command engAllOk c9_long_command "d" 1 0 :=
  c9_display_truncated_execution_full engAllOk c9_long_command "d" 1 0

/-- C10: with `max_retries ≤ 0` the loop body never runs and both executors
return the initial record: status PENDING (neither SUCCESS nor FAILED),
`attempt_count = 0`, `end_time = None`, `error_message = None`,
`row_count = 0`. -/
theorem c10_nonpositive_retries_pending (work : Nat → Except String Nat)
    (engine : String → Nat → Except String Nat) (script cmd desc : String)
    (mr : Int) (d : Nat) (h : mr ≤ 0) :
    execute_sql_script work script desc mr d =
      ({ subject := script, description := desc, status := "PENDING" }, []) ∧
    execute_sql_command engine cmd desc mr d =
      ({ subject := truncateCommand cmd, description := desc, status := "PENDING" }, []) ∧
    (execute_sql_script work script desc mr d).1.status = "PENDING" ∧
    (execute_sql_script work script desc mr d).1.attempt_count = 0 ∧
    (execute_sql_script work script desc mr d).1.end_time = none ∧
    (execute_sql_script work script desc mr d).1.error_message = none ∧
    (execute_sql_script work script desc mr d).1.row_count = 0 := by
  have h0 : mr.toNat = 0 := Int.toNat_of_nonpos h
  simp [execute_sql_script, execute_sql_command, h0, execLoop, initResult]

/-- C10 witness at `max_retries = -1`. -/
theorem c10_nonpositive_retries_pending_witness :
    execute_sql_script wAllFail "s" "d" (-1) 5 =
      ({ subject := "s", description := "d", status := "PENDING" }, []) ∧
    execute_sql_command engAllFail "c" "d" (-1) 5 =
      ({ subject := truncateCommand "c", description := "d", status := "PENDING" }, []) ∧
    (execute_sql_script wAllFail "s" "d" (-1) 5).1.status = "PENDING" ∧
    (execute_sql_script wAllFail "s" "d" (-1) 5).1.attempt_count = 0 ∧
    (execute_sql_script wAllFail "s" "d" (-1) 5).1.end_time = none ∧
    (execute_sql_script wAllFail "s" "d" (-1) 5).1.error_message = none ∧
    (execute_sql_script wAllFail "s" "d" (-1) 5).1.row_count = 0 :=
  c10_nonpositive_retries_pending wAllFail engAllFail "s" "c" "d" (-1) 5 (by decide)

/-- A pipeline summary with status FAILED, used as concrete report input. -/
def c1_pipeline_summary : PipelineSummary :=
  { status := "FAILED", steps_completed := 2, steps_failed := none,
    steps_total := 4, results := [], error := none }

/-- A post-validation outcome with overall status FAILED. -/
def c1_validation_results : ValidationResults := { overall_status := "FAILED" }

/-- C1 (counterexample): when the pipeline status is FAILED and post-validation
status is also FAILED, `generate_summary_report` sets `overall_status` to
WARNING, not FAILED as the claim states. -/
theorem c1_failed_failed_gives_warning :
    c1_pipeline_summary.status = "FAILED" ∧
    c1_validation_results.overall_status = "FAILED" ∧
    (generate_summary_report c1_pipeline_summary c1_validation_results).overall_status = "WARNING" ∧
    (generate_summary_report c1_pipeline_summary c1_validation_results).overall_status ≠ "FAILED" := by
  decide

/-- C1 (amended): for a pipeline summary with status FAILED, the report's
`overall_status` is FAILED exactly when the post-validation status is not
FAILED; when post-validation is also FAILED the report says WARNING. -/
theorem c1_report_status_for_failed_pipeline (ps : PipelineSummary)
    (vr : ValidationResults) (h : ps.status = "FAILED") :
    (generate_summary_report ps vr).overall_status =
      if vr.overall_status = "FAILED" then "WARNING" else "FAILED" := by
  by_cases hv : vr.overall_status = "FAILED" <;>
    simp [generate_summary_report, h, hv]

/-- C1 witness: FAILED pipeline with passing post-validation reports FAILED. -/
theorem c1_report_status_for_failed_pipeline_witness :
    (generate_summary_report c1_pipeline_summary { overall_status := "SUCCESS" }).overall_status =
      if ({ overall_status := "SUCCESS" } : ValidationResults).overall_status = "FAILED"
      then "WARNING" else "FAILED" :=
  c1_report_status_for_failed_pipeline c1_pipeline_summary { overall_status := "SUCCESS" } rfl

/-- C8: `check_system_table_access` yields exactly one outcome per required
table, in input order, and the checks are independent: the outcome at
position `i` is a function of table `i`'s accessibility alone, so a failure
on one table neither suppresses nor alters the outcomes of the others. -/
theorem c8_table_checks_independent (required : List String)
    (access access2 : String → Option String) :
    (check_system_table_access required access).length = required.length ∧
    (∀ (i : Nat) (t : String), required[i]? = some t →
      (check_system_table_access required access)[i]? = some (tableOutcome access t)) ∧
    (∀ (i : Nat) (t : String), required[i]? = some t → access2 t = access t →
      (check_system_table_access required access2)[i]? =
        (check_system_table_access required access)[i]?) := by
  refine ⟨by simp [check_system_table_access], ?_, ?_⟩
  · intro i t ht
    simp [check_system_table_access, List.getElem?_map, ht]
  · intro i t ht hacc
    simp [check_system_table_access, List.getElem?_map, ht, tableOutcome, hacc]

/-- A probe behaviour denying exactly one required table. -/
def c8_access : String → Option String :=
  fun t => if t == "system.billing.usage" then some "denied" else none

/-- A probe behaviour denying a different required table. -/
def c8_access2 : String → Option String :=
  fun t => if t == "system.compute.clusters" then some "denied2" else none

/-- C8 witness on the default required-table list, with the position-1 outcome
evaluated concretely. -/
theorem c8_table_checks_independent_witness :
    ((check_system_table_access default_required_tables c8_access).length =
        default_required_tables.length ∧
      (∀ (i : Nat) (t : String), default_required_tables[i]? = some t →
        (check_system_table_access default_required_tables c8_access)[i]? =
          some (tableOutcome c8_access t)) ∧
      (∀ (i : Nat) (t : String), default_required_tables[i]? = some t → c8_access2 t = c8_access t →
        (check_system_table_access default_required_tables c8_access2)[i]? =
          (check_system_table_access default_required_tables c8_access)[i]?)) ∧
    (check_system_table_access default_required_tables c8_access)[1]? =
      some { table := "system.billing.usage", status := "FAILED",
             accessible := false, error := some "denied" } :=
  ⟨c8_table_checks_independent default_required_tables c8_access c8_access2, by decide⟩

lemma validate_prerequisites_fst (env : Env) :
    (validate_prerequisites env).1 = (validate_prerequisites env).2.isEmpty := rfl

lemma validate_fails_of_inaccessible (env : Env) (t e : String)
    (ht : t ∈ env.required_tables) (ha : env.access t = some e) :
    (validate_prerequisites env).2 ≠ [] := by
  intro hcon
  have hmem : tableOutcome env.access t ∈
      check_system_table_access env.required_tables env.access :=
    List.mem_map_of_mem _ ht
  have hacc : tableOutcome env.access t ∈
      (check_system_table_access env.required_tables env.access).filter
        (fun r => !r.accessible) :=
    List.mem_filter.mpr ⟨hmem, by simp [tableOutcome, ha]⟩
  simp only [validate_prerequisites, List.append_eq_nil, List.map_eq_nil_iff] at hcon
  rw [hcon.1.1.1] at hacc
  exact absurd hacc (List.not_mem_nil _)

/-- C7: if some required table is inaccessible, the pre-flight validation
fails and the notebook run raises (modelled as `Except.error`) before any
pipeline step executes, so no `ExecutionOutcome` is produced; conversely,
whenever pre-flight validation reports no error the run returns the pipeline
summary as data (`Except.ok`), so the pre-flight abort is the only raising
path. -/
theorem c7_preflight_aborts_run (env : Env)
    (scripts etlEngine : String → Nat → Except String Nat) (mr : Int) (d : Nat)
    (t e : String) (ht : t ∈ env.required_tables) (ha : env.access t = some e) :
    (∃ msg, run_notebook env scripts etlEngine mr d = Except.error msg) ∧
    (∀ s, run_notebook env scripts etlEngine mr d ≠ Except.ok s) ∧
    (∀ env2 : Env, (validate_prerequisites env2).2 = [] →
      run_notebook env2 scripts etlEngine mr d =
        Except.ok (execute_pipeline scripts etlEngine mr d)) := by
  have hne := validate_fails_of_inaccessible env t e ht ha
  have hfalse : (validate_prerequisites env).1 = false := by
    rw [validate_prerequisites_fst]
    cases hl : (validate_prerequisites env).2 with
    | nil => exact absurd hl hne
    | cons x xs => rfl
  refine ⟨?_, ?_, ?_⟩
  · exact ⟨"Prerequisites validation failed: " ++
      String.intercalate "; " (validate_prerequisites env).2,
      by simp [run_notebook, hfalse]⟩
  · intro s
    simp [run_notebook, hfalse]
  · intro env2 h2
    have htrue : (validate_prerequisites env2).1 = true := by
      rw [validate_prerequisites_fst, h2]; rfl
    simp [run_notebook, htrue]

/-- An environment in which one of the five required tables is denied and
every other pre-flight check passes. -/
def c7_env : Env :=
  { required_tables := default_required_tables,
    access := c8_access,
    schema_check := none,
    config_keys := required_config_keys,
    connectivity := none }

/-- C7 witness: one denied table among five aborts the run. -/
theorem c7_preflight_aborts_run_witness :
    (∃ msg, run_notebook c7_env engAllOk engAllOk 3 30 = Except.error msg) ∧
    (∀ s, run_notebook c7_env engAllOk engAllOk 3 30 ≠ Except.ok s) ∧
    (∀ env2 : Env, (validate_prerequisites env2).2 = [] →
      run_notebook env2 engAllOk engAllOk 3 30 =
        Except.ok (execute_pipeline engAllOk engAllOk 3 30)) :=
  c7_preflight_aborts_run c7_env engAllOk engAllOk 3 30
    "system.billing.usage" "denied" (by decide) (by decide)

/-- An engine behaviour under which step 1's script succeeds and every other
script (in particular step 2's) always fails. -/
def c2_scripts : String → Nat → Except String Nat := fun script _ =>
  if script == "../sql/01_schema_setup.sql" then Except.ok 1 else Except.error "boom"

/-- C2 (counterexample): when step 1 succeeds and required step 2 fails after
its 3 retries, the summary is FAILED, but it records `steps_completed = 2`
(the two outcome records produced, the failed one included) and
`steps_total = 4` (the fixed step-list length) — not `steps_completed = 1`
and `steps_total = 2` as the claim states. -/
theorem c2_abort_counts_counterexample :
    (execute_pipeline c2_scripts engAllOk 3 30).status = "FAILED" ∧
    (execute_pipeline c2_scripts engAllOk 3 30).steps_completed = 2 ∧
    (execute_pipeline c2_scripts engAllOk 3 30).steps_total = 4 ∧
    (execute_pipeline c2_scripts engAllOk 3 30).results.length = 2 ∧
    ¬((execute_pipeline c2_scripts engAllOk 3 30).steps_completed = 1 ∧
      (execute_pipeline c2_scripts engAllOk 3 30).steps_total = 2) := by
  decide

/-- C2 (amended): whenever step 1's outcome is not FAILED and step 2's outcome
is FAILED, `execute_pipeline` aborts immediately after step 2: the summary is
exactly the early-return record with status FAILED, `steps_completed = 2`,
`steps_total = 4`, and the results list holding only the two outcomes of
steps 1 and 2 — so steps 3, 4 and the incremental ETL call (whose engine
`etlEngine` is arbitrary and absent from the result) never run. -/
theorem c2_required_step_failure_aborts
    (scripts etlEngine : String → Nat → Except String Nat) (mr : Int) (d : Nat)
    (h1 : (execute_sql_script (scripts "../sql/01_schema_setup.sql")
        "../sql/01_schema_setup.sql" "Setup schema and permissions" mr d).1.status ≠ "FAILED")
    (h2 : (execute_sql_script (scripts "../sql/02_core_tables.sql")
        "../sql/02_core_tables.sql" "Create core Delta tables" mr d).1.status = "FAILED") :
    execute_pipeline scripts etlEngine mr d =
      { status := "FAILED",
        steps_completed := 2,
        steps_failed := none,
        steps_total := 4,
        results := [(execute_sql_script (scripts "../sql/01_schema_setup.sql")
            "../sql/01_schema_setup.sql" "Setup schema and permissions" mr d).1,
          (execute_sql_script (scripts "../sql/02_core_tables.sql")
            "../sql/02_core_tables.sql" "Create core Delta tables" mr d).1],
        error := some "Required pipeline step failed: Create core Delta tables" } := by
  have hb1 : ((execute_sql_script (scripts "../sql/01_schema_setup.sql")
      "../sql/01_schema_setup.sql" "Setup schema and permissions" mr d).1.status
        == "FAILED") = false := beq_eq_false_iff_ne.mpr h1
  have hb2 : ((execute_sql_script (scripts "../sql/02_core_tables.sql")
      "../sql/02_core_tables.sql" "Create core Delta tables" mr d).1.status
        == "FAILED") = true := beq_iff_eq.mpr h2
  simp [execute_pipeline, pipeline_steps, runSteps, hb1, hb2]

/-- C2 witness at the concrete step-2-failing engine. -/
theorem c2_required_step_failure_aborts_witness :
    execute_pipeline c2_scripts engAllOk 3 30 =
      { status := "FAILED",
        steps_completed := 2,
        steps_failed := none,
        steps_total := 4,
        results := [(execute_sql_script (c2_scripts "../sql/01_schema_setup.sql")
            "../sql/01_schema_setup.sql" "Setup schema and permissions" 3 30).1,
          (execute_sql_script (c2_scripts "../sql/02_core_tables.sql")
            "../sql/02_core_tables.sql" "Create core Delta tables" 3 30).1],
        error := some "Required pipeline step failed: Create core Delta tables" } :=
  c2_required_step_failure_aborts c2_scripts engAllOk 3 30 (by decide) (by decide)

lemma aggregate_status_spec (f s : Nat) :
    (aggregate_status f s = "SUCCESS" ↔ f = 0) ∧
    (aggregate_status f s = "PARTIAL_SUCCESS" ↔ 0 < f ∧ 0 < s) ∧
    (aggregate_status f s = "FAILED" ↔ 0 < f ∧ s = 0) := by
  unfold aggregate_status
  by_cases hf : f = 0 <;> by_cases hs : 0 < s <;>
    simp [hf, hs] <;> omega

lemma filter_len_pos_iff (l : List ExecResult) (s : String) :
    0 < (l.filter (fun r => r.status == s)).length ↔ ∃ r ∈ l, r.status = s := by
  simp only [← List.countP_eq_length_filter, List.countP_pos_iff, beq_iff_eq]

lemma runSteps_no_abort (scripts : String → Nat → Except String Nat) (mr : Int) (d : Nat) :
    ∀ steps acc, (∀ s ∈ steps, s.required = true) →
      (runSteps scripts mr d steps acc).2 = none →
      (runSteps scripts mr d steps acc).1.length = acc.length + steps.length ∧
      ∀ r ∈ (runSteps scripts mr d steps acc).1, r ∈ acc ∨ r.status ≠ "FAILED" := by
  intro steps
  induction steps with
  | nil =>
    intro acc _ _
    exact ⟨by simp [runSteps], fun r hr => Or.inl (by simpa [runSteps] using hr)⟩
  | cons step rest ih =>
    intro acc hreq hnone
    have hreqs : step.required = true := hreq step (List.mem_cons_self _ _)
    simp only [runSteps, hreqs, Bool.true_and] at hnone ⊢
    by_cases hb : ((execute_sql_script (scripts step.script) step.script
        step.description mr d).1.status == "FAILED") = true
    · rw [if_pos hb] at hnone
      simp at hnone
    · rw [if_neg hb] at hnone ⊢
      have hne : (execute_sql_script (scripts step.script) step.script
          step.description mr d).1.status ≠ "FAILED" := by
        rw [Bool.not_eq_true] at hb
        exact beq_eq_false_iff_ne.mp hb
      obtain ⟨hlen, hmem⟩ := ih
        (acc ++ [(execute_sql_script (scripts step.script) step.script
          step.description mr d).1])
        (fun s hs => hreq s (List.mem_cons_of_mem _ hs)) hnone
      refine ⟨by simp only [List.length_append, List.length_cons, List.length_nil] at hlen ⊢
                 omega, ?_⟩
      intro r hr
      rcases hmem r hr with hin | hsts
      · rcases List.mem_append.mp hin with hacc | hsingle
        · exact Or.inl hacc
        · have : r = (execute_sql_script (scripts step.script) step.script
              step.description mr d).1 := by simpa using hsingle
          exact Or.inr (this ▸ hne)
      · exact Or.inr hsts

/-- C6: for every run of `execute_pipeline` reaching the end of the step list
without early abort, the aggregate status is SUCCESS iff no outcome is
FAILED, PARTIAL_SUCCESS iff at least one outcome is FAILED and at least one
is SUCCESS, and FAILED iff some outcome is FAILED and none is SUCCESS;
moreover PARTIAL_SUCCESS holds iff some step failed, every failed step was
non-required (pairing each outcome with its step's `required` flag, the ETL
call counting as non-required), and some step succeeded. -/
theorem c6_aggregate_status (scripts etlEngine : String → Nat → Except String Nat)
    (mr : Int) (d : Nat) (S : PipelineSummary)
    (hnone : (runSteps scripts mr d pipeline_steps []).2 = none)
    (hS : S = execute_pipeline scripts etlEngine mr d) :
    (S.status = "SUCCESS" ↔
      (S.results.filter (fun r => r.status == "FAILED")).length = 0) ∧
    (S.status = "PARTIAL_SUCCESS" ↔
      0 < (S.results.filter (fun r => r.status == "FAILED")).length ∧
      0 < (S.results.filter (fun r => r.status == "SUCCESS")).length) ∧
    (S.status = "FAILED" ↔
      0 < (S.results.filter (fun r => r.status == "FAILED")).length ∧
      (S.results.filter (fun r => r.status == "SUCCESS")).length = 0) ∧
    (S.status = "PARTIAL_SUCCESS" ↔
      ((∃ r ∈ S.results, r.status = "FAILED") ∧
       (∀ p ∈ S.results.zip ((pipeline_steps.map StepSpec.required) ++ [false]),
          p.1.status = "FAILED" → p.2 = false) ∧
       (∃ r ∈ S.results, r.status = "SUCCESS"))) := by
  obtain ⟨hlen, hmem⟩ := runSteps_no_abort scripts mr d pipeline_steps [] (by decide) hnone
  subst hS
  simp only [execute_pipeline, hnone]
  set L := (runSteps scripts mr d pipeline_steps []).1 with hL
  set E := (execute_sql_command etlEngine etl_command
    "Process incremental query performance data" mr d).1 with hE
  have hlenL : L.length = 4 := by
    rw [hlen]; rfl
  have hLnotF : ∀ r ∈ L, r.status ≠ "FAILED" := by
    intro r hr
    rcases hmem r hr with hin | hsts
    · exact absurd hin (List.not_mem_nil r)
    · exact hsts
  have hspec := aggregate_status_spec
    (((L ++ [E]).filter (fun r => r.status == "FAILED")).length)
    (((L ++ [E]).filter (fun r => r.status == "SUCCESS")).length)
  refine ⟨hspec.1, hspec.2.1, hspec.2.2, ?_⟩
  rw [hspec.2.1]
  constructor
  · rintro ⟨hf, hs⟩
    refine ⟨(filter_len_pos_iff _ _).mp hf, ?_, (filter_len_pos_iff _ _).mp hs⟩
    intro p hp hpf
    have hflags : pipeline_steps.map StepSpec.required = [true, true, true, true] := by decide
    rw [hflags, List.zip_append (by rw [hlenL]; rfl)] at hp
    rcases List.mem_append.mp hp with hp1 | hp2
    · obtain ⟨a, b⟩ := p
      have hab := List.of_mem_zip hp1
      exact absurd hpf (hLnotF a hab.1)
    · have : p = (E, false) := by simpa using hp2
      rw [this]
  · rintro ⟨⟨r, hrmem, hrfail⟩, _, ⟨r2, hr2mem, hr2succ⟩⟩
    exact ⟨(filter_len_pos_iff _ _).mpr ⟨r, hrmem, hrfail⟩,
      (filter_len_pos_iff _ _).mpr ⟨r2, hr2mem, hr2succ⟩⟩

/-- The pipeline summary of an all-succeeding run, used as concrete input. -/
def c6_summary : PipelineSummary := execute_pipeline engAllOk engAllOk 1 0

/-- C6 witness at an all-succeeding run (no abort, five SUCCESS outcomes). -/
theorem c6_aggregate_status_witness :
    (c6_summary.status = "SUCCESS" ↔
      (c6_summary.results.filter (fun r => r.status == "FAILED")).length = 0) ∧
    (c6_summary.status = "PARTIAL_SUCCESS" ↔
      0 < (c6_summary.results.filter (fun r => r.status == "FAILED")).length ∧
      0 < (c6_summary.results.filter (fun r => r.status == "SUCCESS")).length) ∧
    (c6_summary.status = "FAILED" ↔
      0 < (c6_summary.results.filter (fun r => r.status == "FAILED")).length ∧
      (c6_summary.results.filter (fun r => r.status == "SUCCESS")).length = 0) ∧
    (c6_summary.status = "PARTIAL_SUCCESS" ↔
      ((∃ r ∈ c6_summary.results, r.status = "FAILED") ∧
       (∀ p ∈ c6_summary.results.zip ((pipeline_steps.map StepSpec.required) ++ [false]),
          p.1.status = "FAILED" → p.2 = false) ∧
       (∃ r ∈ c6_summary.results, r.status = "SUCCESS"))) :=
  c6_aggregate_status engAllOk engAllOk 1 0 c6_summary (by decide) rfl

end QOpt
